import Mathlib

/-!
Verification of the image-tagger watched-folder processing pipeline
(`image-webui/backend/image_tagger/core.py`, `image-webui/backend/tasks.py`,
`image-webui/backend/models.py`) against its natural-language specification.

The Python functions are shallowly embedded as executable Lean definitions.
External effects (filesystem stat, subprocess exit codes, HTTP responses,
database rows) are passed in explicitly as oracle values, exactly mirroring
the branching structure of the source.
-/

namespace ImageTagger

/-- Python whitespace characters stripped by `str.strip()` (ASCII subset,
which is all that occurs in paths, hex digests and exiftool messages). -/
def pyIsSpace (c : Char) : Bool :=
  c = ' ' || c = '\t' || c = '\n' || c = '\x0b' || c = '\x0c' || c = '\r'

/-- Embedding of Python `str.strip()`: drop whitespace from both ends. -/
def pyStrip (s : String) : String :=
  ⟨((s.data.dropWhile pyIsSpace).reverse.dropWhile pyIsSpace).reverse⟩

/-- Boolean check that the first list occurs at the head of the second. -/
def charsPfx : List Char → List Char → Bool
  | [], _ => true
  | _ :: _, [] => false
  | a :: as, b :: bs => a = b && charsPfx as bs

/-- Boolean check that the first list occurs contiguously inside the second. -/
def charsSub : List Char → List Char → Bool
  | needle, [] => needle.isEmpty
  | needle, hay@(_ :: rest) => charsPfx needle hay || charsSub needle rest

/-- Embedding of Python `needle in hay` on strings. -/
def strContains (hay needle : String) : Bool :=
  charsSub needle.data hay.data

/-- Embedding of Python `str.lower()` (ASCII case folding, which covers
the file-extension strings it is applied to). -/
def pyLower (s : String) : String :=
  ⟨s.data.map Char.toLower⟩

/-! ## Data model: the `Image` ORM row (`models.py`, class `Image`)

Only the fields consulted by the deduplication check are carried.
`file_modified_at` and the probed current mtime are POSIX timestamps as
naturals (`none` models a NULL column / a failing `stat` call). -/

structure ImageRecord where
  processing_status : String
  description : Option String
  file_modified_at : Option Nat
deriving DecidableEq, Repr

/-- Embedding of `models.py` line 52, the `Image.is_processed` property:
`processing_status == "completed" and description is not None`. -/
def ImageRecord.is_processed (img : ImageRecord) : Bool :=
  img.processing_status = "completed" && img.description.isSome

/-- Embedding of `is_image_already_processed_in_db` (`core.py` lines 334-367).
`record` is the row returned by the path lookup (`none` = no row, or no
database session).  `currentMtime` is the file's on-disk mtime (`none` models
the `stat` call raising, which the code catches and falls through).
The source returns `True` early when `is_processed` holds (line 352); the
modification-time comparison (lines 355-359) is reached only for rows that
are not `is_processed`, returns `False` when the file is newer (line 359),
and otherwise falls through to the final `return False` (line 363). -/
def is_image_already_processed_in_db
    (record : Option ImageRecord) (currentMtime : Option Nat) : Bool :=
  match record with
  | none => false
  | some img =>
    if img.is_processed then
      true
    else
      match currentMtime, img.file_modified_at with
      | some m, some fm =>
        if m > fm then
          false
        else
          false
      | _, _ => false

/-! ## `process_image` (`core.py` lines 452-642)

One call interacts with the outside world through a per-call file
environment (size check, dedup lookups, base64 encoding) and, for each loop
iteration `i` of the retry loop (lines 527-631), an `Attempt` describing the
health probe, the generation POST and the metadata write.  The embedding
returns the result, the ordered list of statuses passed to
`update_image_processing_status`, the number of health-probe GET calls,
and the number of retry-loop iterations executed. -/

inductive GenOutcome where
  /-- The `requests.post` call raised a `RequestException` (caught at line 629). -/
  | reqError : GenOutcome
  /-- POST returned a non-200 status (lines 605-627). -/
  | httpError (code : Nat) : GenOutcome
  /-- POST returned 200; `parseOk` is whether `response.json()` (and the tag
  extraction / logging code, lines 571-583) ran without raising, and
  `response` is the raw `response` field of the JSON body (`''` when the
  field is missing, as `response_json.get('response', '')` yields). -/
  | ok (parseOk : Bool) (response : String) : GenOutcome
deriving DecidableEq, Repr

structure Attempt where
  /-- The health-probe GET (line 533) returned without raising and with
  status 200.  Both a raised `RequestException` and a non-200 status take
  the identical abort-this-attempt branch (lines 534-553). -/
  probeOk : Bool
  gen : GenOutcome
  /-- Result of `update_image_metadata` (line 586), queried only when a
  non-empty description was obtained. -/
  metadataOk : Bool
deriving DecidableEq, Repr

structure FileEnv where
  /-- The `stat` call succeeded and the size was within `max_file_size_mb`
  (lines 489-500). -/
  fileSizeOk : Bool
  /-- Result of `is_image_already_processed_in_db` (line 505). -/
  dbProcessed : Bool
  /-- Result of `is_file_processed` (line 512). -/
  fileTracked : Bool
  /-- Whether `encode_image_to_base64` returned a payload (line 519). -/
  encodeOk : Bool
deriving DecidableEq, Repr

inductive ProcResult where
  | success (description : String) (tags : List String) : ProcResult
  | skipped : ProcResult
  | failed : ProcResult
deriving DecidableEq, Repr

structure ProcOutcome where
  result : ProcResult
  /-- Statuses passed to `update_image_processing_status`, in order. -/
  trace : List String
  /-- Number of health-probe GET requests issued. -/
  probeCalls : Nat
  /-- Number of iterations of the retry loop that started executing. -/
  attemptsUsed : Nat
deriving DecidableEq, Repr

/-- Stand-in for the keyword-extraction pass (`extract_tags_from_description`,
`core.py` lines 82-140).  The spec places the fixed word-list heuristic out
of scope, no claim inspects the tag list (it is only threaded through), and
the source's `list(set(found_tags))` makes the output order depend on
Python's hash seed, so its word lists are not reproduced here; only the
source's shape is kept (empty description yields no tags, line 84). -/
def extract_tags_from_description (description : String) : List String :=
  if description = "" then [] else [description]

/-- The retry loop of `process_image` (`core.py` lines 527-636).
`fuel` is the number of iterations left (`max_retries - i`); an iteration is
the last one (`attempt == max_retries - 1`, lines 536 and 546) exactly when
`fuel = 1`.  The base case is the fall-through after the loop (lines
633-636). -/
def processImageLoop (env : Nat → Attempt) :
    Nat → Nat → Nat → Nat → List String → ProcOutcome
  | 0, _, probes, used, trace =>
    ⟨.failed, trace ++ ["failed"], probes, used⟩
  | fuel + 1, i, probes, used, trace =>
    if (env i).probeOk then
      match (env i).gen with
      | .reqError =>
        processImageLoop env fuel (i + 1) (probes + 1) (used + 1) trace
      | .httpError _ =>
        processImageLoop env fuel (i + 1) (probes + 1) (used + 1) trace
      | .ok parseOk resp =>
        if parseOk then
          if pyStrip resp = "" then
            processImageLoop env fuel (i + 1) (probes + 1) (used + 1) trace
          else if (env i).metadataOk then
            ⟨.success (pyStrip resp) (extract_tags_from_description (pyStrip resp)),
              trace ++ ["completed"], probes + 1, used + 1⟩
          else
            ⟨.failed, trace ++ ["failed"], probes + 1, used + 1⟩
        else
          processImageLoop env fuel (i + 1) (probes + 1) (used + 1) trace
    else
      if fuel = 0 then
        ⟨.failed, trace ++ ["failed"], probes + 1, used + 1⟩
      else
        processImageLoop env fuel (i + 1) (probes + 1) (used + 1) trace

/-- Embedding of `process_image` (`core.py` lines 452-642): status update to
`processing` (line 486), file-size check (lines 489-500), the two dedup
checks under `not is_override` (lines 503-516), base64 encoding (lines
519-524), then the retry loop. -/
def process_image (max_retries : Nat) (fe : FileEnv) (is_override : Bool)
    (env : Nat → Attempt) : ProcOutcome :=
  let trace := ["processing"]
  if !fe.fileSizeOk then
    ⟨.failed, trace ++ ["failed"], 0, 0⟩
  else if !is_override && fe.dbProcessed then
    ⟨.skipped, trace ++ ["skipped"], 0, 0⟩
  else if !is_override && fe.fileTracked then
    ⟨.skipped, trace ++ ["skipped"], 0, 0⟩
  else if !fe.encodeOk then
    ⟨.failed, trace ++ ["failed"], 0, 0⟩
  else
    processImageLoop env max_retries 0 0 0 trace

/-! ## `update_image_metadata` (`core.py` lines 831-904)

Each retry-loop iteration runs the primary exiftool command and, on a
PNG/JPEG format-mismatch failure signature, one forced-JPEG exiftool
command.  Their exit states are supplied per iteration. -/

inductive ToolResult where
  /-- The `subprocess.run` call returned with exit code 0. -/
  | ok : ToolResult
  /-- The `subprocess.run` call returned with a non-zero exit code; the payload is
  the captured `stderr` text. -/
  | err (stderr : String) : ToolResult
  /-- The `subprocess.run` call itself raised (handlers at lines 894-901). -/
  | raised : ToolResult
deriving DecidableEq, Repr

structure MetaAttempt where
  /-- Outcome of the primary exiftool invocation (line 861). -/
  primary : ToolResult
  /-- Outcome of the forced-JPEG exiftool invocation (line 883), queried
  only when the mismatch signature is detected. -/
  forced : ToolResult
deriving DecidableEq, Repr

/-- Embedding of `core.py` line 867:
`error_msg = result.stderr.strip() if result.stderr else "Unknown error"`. -/
def exiftoolErrorMsg (stderr : String) : String :=
  if stderr ≠ "" then pyStrip stderr else "Unknown error"

/-- The retry loop of `update_image_metadata` (`core.py` lines 843-901);
the base case is the fall-through after the loop (lines 903-904). -/
def updateImageMetadataLoop (file_extension : String)
    (actual_format : Option String) (attempts : Nat → MetaAttempt) :
    Nat → Nat → Bool
  | 0, _ => false
  | fuel + 1, i =>
    match (attempts i).primary with
    | .ok => true
    | .raised => updateImageMetadataLoop file_extension actual_format attempts fuel (i + 1)
    | .err stderr =>
      if file_extension = ".png" && actual_format = some "jpeg"
          && strContains (exiftoolErrorMsg stderr) "Not a valid PNG"
          && strContains (exiftoolErrorMsg stderr) "looks more like a JPEG" then
        match (attempts i).forced with
        | .ok => true
        | _ => updateImageMetadataLoop file_extension actual_format attempts fuel (i + 1)
      else
        updateImageMetadataLoop file_extension actual_format attempts fuel (i + 1)

/-- Embedding of `update_image_metadata` (`core.py` lines 831-904).
`file_extension` is `image_path.suffix.lower()` (line 837); `actual_format`
is `detect_actual_image_format(image_path)` (line 836), `none` when the
file is not a readable image. -/
def update_image_metadata (file_extension : String)
    (actual_format : Option String) (max_retries : Nat)
    (attempts : Nat → MetaAttempt) : Bool :=
  updateImageMetadataLoop file_extension actual_format attempts max_retries 0

/-! ## The dedup append-log (`core.py` lines 369-409 and 907-935)

The tracking file is modelled as `Option (List String)`: `none` when the
file does not exist, otherwise the list of its lines as Python's
line-iteration yields them (each stored line carries its trailing
newline). -/

/-- Embedding of `mark_file_as_processed` (`core.py` lines 392-409):
no-op when tracking is disabled in the config (lines 394-396) or the
checksum could not be computed (lines 398-400); otherwise appends
`f"{image_path}:{checksum}\n"` (line 407), creating the file if absent. -/
def mark_file_as_processed (use_file_tracking : Bool)
    (checksum : Option String) (image_path : String)
    (file : Option (List String)) : Option (List String) :=
  if !use_file_tracking then
    file
  else
    match checksum with
    | none => file
    | some h => some ((file.getD []) ++ [image_path ++ ":" ++ h ++ "\n"])

/-- Embedding of `is_file_processed` (`core.py` lines 369-390): false when
tracking is disabled (lines 372-373), the tracking file does not exist
(lines 376-377) or the checksum could not be computed (lines 379-381);
otherwise true iff some line satisfies
`line.strip() == f"{image_path}:{checksum}"` (line 386). -/
def is_file_processed (use_file_tracking : Bool)
    (file : Option (List String)) (checksum : Option String)
    (image_path : String) : Bool :=
  if !use_file_tracking then
    false
  else
    match file with
    | none => false
    | some lines =>
      match checksum with
      | none => false
      | some h => lines.any (fun line => pyStrip line == image_path ++ ":" ++ h)

/-- Embedding of Python `s.split(':', 1)` restricted to its two shapes:
`some (before, after)` splits at the first colon, `none` when the string
contains no colon (so `len(parts) != 2`, `core.py` line 922). -/
def splitFirstColon : List Char → Option (List Char × List Char)
  | [] => none
  | c :: rest =>
    if c = ':' then
      some ([], rest)
    else
      match splitFirstColon rest with
      | none => none
      | some (a, b) => some (c :: a, b)

/-- Embedding of the filtering pass of `clean_processed_db`
(`core.py` lines 920-928): returns the kept entries (in order, verbatim)
and the removed count.  An entry with no colon after stripping is skipped
by the `continue` at line 923 (neither kept nor counted); an entry whose
path part refers to an existing file is appended unchanged (line 926);
otherwise it is dropped and counted (line 928).  `fileExists` is the oracle
for `Path(file_path).exists()`. -/
def clean_processed_db (fileExists : String → Bool) :
    List String → List String × Nat
  | [] => ([], 0)
  | entry :: rest =>
    let r := clean_processed_db fileExists rest
    match splitFirstColon (pyStrip entry).data with
    | none => r
    | some (p, _) =>
      if fileExists ⟨p⟩ then (entry :: r.1, r.2) else (r.1, r.2 + 1)

/-! ## `process_directory` (`core.py` lines 644-791)

Files are pairs of a path and a modification time (a natural-number POSIX
timestamp).  Per-file processing outcomes are supplied by an oracle
classifying `process_image`'s return value exactly as the counting code
does (`ok is True` / `ok == "skipped"` / anything else, lines 718-723). -/

/-- The sort key ordering used at `core.py` line 684:
`image_files.sort(key=lambda f: os.path.getmtime(f), reverse=True)`,
i.e. descending by modification time. -/
def mtimeGe (a b : String × Nat) : Prop := b.2 ≤ a.2

instance : DecidableRel mtimeGe := fun a b =>
  inferInstanceAs (Decidable (b.2 ≤ a.2))

instance : IsTotal (String × Nat) mtimeGe := ⟨fun a b => Nat.le_total b.2 a.2⟩

instance : IsTrans (String × Nat) mtimeGe :=
  ⟨fun _ _ _ h1 h2 => Nat.le_trans h2 h1⟩

/-- The processing order of `process_directory` (`core.py` lines 683-685):
a stable sort of the discovered files, newest modification time first. -/
def process_directory_order (image_files : List (String × Nat)) :
    List (String × Nat) :=
  List.insertionSort mtimeGe image_files

inductive FileOutcome where
  /-- The call `process_image` returned `True` (Python `ok is True`). -/
  | success : FileOutcome
  /-- The call `process_image` returned `"skipped"`. -/
  | skipped : FileOutcome
  /-- Any other return value (`False`). -/
  | error : FileOutcome
deriving DecidableEq, Repr

structure Counts where
  success_count : Nat
  skip_count : Nat
  error_count : Nat
deriving DecidableEq, Repr

/-- One counter update of `process_directory` (`core.py` lines 718-723,
repeated verbatim at lines 750-755 and 774-779). -/
def countFile (c : Counts) : FileOutcome → Counts
  | .success => { c with success_count := c.success_count + 1 }
  | .skipped => { c with skip_count := c.skip_count + 1 }
  | .error => { c with error_count := c.error_count + 1 }

/-- Processing of one batch (`core.py` lines 702-723 / 734-755): each file
of the batch is processed and classified into exactly one counter. -/
def runBatchFiles (outcome : String × Nat → FileOutcome) (c : Counts)
    (batch : List (String × Nat)) : Counts :=
  batch.foldl (fun acc f => countFile acc (outcome f)) c

/-- The batched path of `process_directory` (`core.py` lines 695-755):
files accumulate into `batch_files`; once `len(batch_files) >= batch_size`
the batch is processed and cleared (lines 700-726), and a leftover
non-empty batch is processed after the loop (lines 731-755). -/
def batchLoop (outcome : String × Nat → FileOutcome) (batch_size : Nat) :
    List (String × Nat) → List (String × Nat) → Counts → Counts
  | [], batch_files, c =>
    if batch_files.isEmpty then c else runBatchFiles outcome c batch_files
  | f :: rest, batch_files, c =>
    let bf := batch_files ++ [f]
    if batch_size ≤ bf.length then
      batchLoop outcome batch_size rest [] (runBatchFiles outcome c bf)
    else
      batchLoop outcome batch_size rest bf c

/-- Embedding of the counting behaviour of `process_directory` with
`return_data=False` (`core.py` lines 670-791): the discovered files are
sorted newest-first, then processed through the batched path when
`batch_size > 0` (lines 695-755) or one by one otherwise (lines 757-779);
returns the three counters and `total_files` (computed from the discovered
list, line 680). -/
def process_directory (outcome : String × Nat → FileOutcome)
    (batch_size : Nat) (files : List (String × Nat)) : Counts × Nat :=
  let total_files := files.length
  let image_files := process_directory_order files
  if 0 < batch_size then
    (batchLoop outcome batch_size image_files [] ⟨0, 0, 0⟩, total_files)
  else
    (image_files.foldl (fun acc f => countFile acc (outcome f)) ⟨0, 0, 0⟩,
      total_files)

/-! ## The folder-watch event handler (`tasks.py` lines 24-157)

`ImageEventHandler.on_modified` filters directory events and unrecognized
extensions, then calls `_process_image`, which first looks the path up in
the database and returns early when a row exists (lines 60-63); only when
no row exists does it call `tagger.process_image` and, on success, add a
fresh row.  The database state for the event path is the `Option
ImageRecord` for that path; the result records the row after the handler
and whether `tagger.process_image` was invoked. -/

def IMAGE_EXTENSIONS : List String :=
  [".jpg", ".jpeg", ".png", ".gif", ".bmp", ".heic", ".heif", ".tif", ".tiff"]

structure WatchResult where
  /-- The database row for the event path after the handler ran. -/
  record : Option ImageRecord
  /-- Whether `tagger.process_image` was invoked for the path. -/
  calledProcessImage : Bool
deriving DecidableEq, Repr

/-- Embedding of `ImageEventHandler._process_image` (`tasks.py` lines
50-157).  With an existing row the handler logs and returns at line 63,
leaving the row untouched and never calling `tagger.process_image`.
Otherwise it calls `tagger.process_image` (line 67) and on a successful
result adds a new `Image(path=..., description=...)` row (lines 80-94),
whose `processing_status` column keeps its `"pending"` default and whose
`file_modified_at` stays NULL (`models.py` lines 30-32). -/
def watchHandlerProcessImage (existing : Option ImageRecord)
    (procResult : ProcResult) : WatchResult :=
  match existing with
  | some img => ⟨some img, false⟩
  | none =>
    match procResult with
    | .success d _tags => ⟨some ⟨"pending", some d, none⟩, true⟩
    | .skipped => ⟨none, true⟩
    | .failed => ⟨none, true⟩

/-- Embedding of `ImageEventHandler.on_modified` (`tasks.py` lines 41-48):
directory events are ignored, and `_process_image` runs only when
`path.suffix.lower()` is a recognized image extension. -/
def on_modified (is_directory : Bool) (suffix : String)
    (existing : Option ImageRecord) (procResult : ProcResult) : WatchResult :=
  if is_directory then
    ⟨existing, false⟩
  else if IMAGE_EXTENSIONS.contains (pyLower suffix) then
    watchHandlerProcessImage existing procResult
  else
    ⟨existing, false⟩

/-! ## Properties of the `process_image` retry loop -/

/-- An attempt in which the vision call succeeded with a non-empty stripped
description and the metadata write reported success — the only attempt
shape on which `process_image` reaches the `completed` status update
(`core.py` lines 570-593). -/
def visionAndWriteSucceeded (a : Attempt) : Prop :=
  a.probeOk = true ∧
    ∃ resp, a.gen = .ok true resp ∧ pyStrip resp ≠ "" ∧ a.metadataOk = true

/-- An attempt whose generation call returned HTTP 200 with a parseable
body whose `response` field strips to the empty string (`core.py` lines
573-575 raise `ValueError("Empty description received")`). -/
def emptyResponseAttempt (a : Attempt) : Prop :=
  a.probeOk = true ∧ ∃ resp, a.gen = .ok true resp ∧ pyStrip resp = ""

theorem processImageLoop_probe_fail (env : Nat → Attempt)
    (h : ∀ j, (env j).probeOk = false) :
    ∀ fuel i probes used trace,
      processImageLoop env fuel i probes used trace =
        ⟨.failed, trace ++ ["failed"], probes + fuel, used + fuel⟩ := by
  intro fuel
  induction fuel with
  | zero => intro i probes used trace; rfl
  | succ n ih =>
    intro i probes used trace
    rw [processImageLoop]
    simp only [h i, Bool.false_eq_true, if_false]
    cases n with
    | zero => rfl
    | succ m =>
      simp only [Nat.succ_ne_zero, if_false, ih]
      congr 1 <;> omega

theorem processImageLoop_empty_response (env : Nat → Attempt)
    (h : ∀ j, emptyResponseAttempt (env j)) :
    ∀ fuel i probes used trace,
      processImageLoop env fuel i probes used trace =
        ⟨.failed, trace ++ ["failed"], probes + fuel, used + fuel⟩ := by
  intro fuel
  induction fuel with
  | zero => intro i probes used trace; rfl
  | succ n ih =>
    intro i probes used trace
    obtain ⟨hp, resp, hgen, hempty⟩ := h i
    rw [processImageLoop]
    simp only [hp, if_true, hgen, hempty, if_pos rfl, ih]
    congr 1 <;> omega

/-- Structural invariant of the retry loop: a failed run appends exactly
the status `failed`; a successful run appends exactly the status
`completed`, has a non-empty description, and exhibits an attempt on which
the vision call yielded a non-empty description and the metadata write
succeeded; the loop never yields `skipped`. -/
theorem processImageLoop_shape (env : Nat → Attempt) :
    ∀ fuel i probes used trace,
      ((processImageLoop env fuel i probes used trace).result = .failed →
        (processImageLoop env fuel i probes used trace).trace =
          trace ++ ["failed"]) ∧
      (∀ d t,
        (processImageLoop env fuel i probes used trace).result = .success d t →
        (processImageLoop env fuel i probes used trace).trace =
            trace ++ ["completed"] ∧
          d ≠ "" ∧ ∃ j, i ≤ j ∧ j < i + fuel ∧ visionAndWriteSucceeded (env j)) ∧
      (processImageLoop env fuel i probes used trace).result ≠ .skipped := by
  intro fuel
  induction fuel with
  | zero =>
    intro i probes used trace
    refine ⟨fun _ => rfl, fun d t h => ?_, by simp [processImageLoop]⟩
    simp [processImageLoop] at h
  | succ n ih =>
    intro i probes used trace
    have hrec : ∀ probes' used',
        ((processImageLoop env n (i + 1) probes' used' trace).result = .failed →
          (processImageLoop env n (i + 1) probes' used' trace).trace =
            trace ++ ["failed"]) ∧
        (∀ d t,
          (processImageLoop env n (i + 1) probes' used' trace).result =
              .success d t →
          (processImageLoop env n (i + 1) probes' used' trace).trace =
              trace ++ ["completed"] ∧
            d ≠ "" ∧
              ∃ j, i ≤ j ∧ j < i + (n + 1) ∧ visionAndWriteSucceeded (env j)) ∧
        (processImageLoop env n (i + 1) probes' used' trace).result ≠
          .skipped := by
      intro probes' used'
      obtain ⟨ih1, ih2, ih3⟩ := ih (i + 1) probes' used' trace
      refine ⟨ih1, fun d t h => ?_, ih3⟩
      obtain ⟨htr, hd, j, hj1, hj2, hgood⟩ := ih2 d t h
      exact ⟨htr, hd, j, by omega, by omega, hgood⟩
    rw [processImageLoop]
    by_cases hp : (env i).probeOk
    · simp only [hp, if_true]
      rcases hg : (env i).gen with _ | code | ⟨parseOk, resp⟩
      · simp only [hg]
        exact hrec (probes + 1) (used + 1)
      · simp only [hg]
        exact hrec (probes + 1) (used + 1)
      · simp only [hg]
        cases parseOk with
        | false => simp only [Bool.false_eq_true, if_false]
                   exact hrec (probes + 1) (used + 1)
        | true =>
          simp only [if_true]
          by_cases hd : pyStrip resp = ""
          · simp only [hd, if_pos rfl]
            exact hrec (probes + 1) (used + 1)
          · simp only [if_neg hd]
            by_cases hm : (env i).metadataOk
            · simp only [hm, if_true]
              refine ⟨fun h => by simp at h, fun d t h => ?_, by simp⟩
              have h' : ProcResult.success (pyStrip resp)
                  (extract_tags_from_description (pyStrip resp)) =
                    ProcResult.success d t := h
              injection h' with h1 h2
              subst h1
              exact ⟨trivial, hd, i, le_refl i, by omega, hp, resp, hg, hd, hm⟩
            · simp only [hm, Bool.false_eq_true, if_false]
              simp
    · simp only [hp, Bool.false_eq_true, if_false]
      cases n with
      | zero =>
        simp only [if_pos rfl]
        simp
      | succ m =>
        simp only [Nat.succ_ne_zero, if_false]
        exact hrec (probes + 1) (used + 1)

/-! ## Claim theorems -/

/-- C1: the claim states that for a file with an existing `completed`
ProcessingRecord the dedup check compares the file's current mtime to the
record's `file_modified_at` and returns `false` when the file is newer.
Evaluating the embedded `is_image_already_processed_in_db` at a record with
`processing_status = "completed"`, a non-null description and
`file_modified_at = 100`, with the file's on-disk mtime 200 (newer), yields
`true` (skip): the `is_processed` early return at `core.py` line 352
precedes the mtime comparison, so the comparison never runs for completed
records (and where it does run, lines 355-363, both outcomes are `false`). -/
theorem c1_completed_record_skips_even_when_file_newer :
    is_image_already_processed_in_db
      (some ⟨"completed", some "a cat on a sofa", some 100⟩) (some 200) =
      true := by
  rfl

/-- C2: in every run of `process_image`, the status `completed` is reported
only when some attempt had a succeeding vision call with a non-empty
description and a succeeding metadata write; every run that returns failure
reports the status `failed` and never reports `completed`. -/
theorem c2_completed_only_after_vision_and_metadata (max_retries : Nat)
    (fe : FileEnv) (is_override : Bool) (env : Nat → Attempt) :
    ("completed" ∈ (process_image max_retries fe is_override env).trace →
      ∃ j, j < max_retries ∧ visionAndWriteSucceeded (env j)) ∧
    ((process_image max_retries fe is_override env).result = .failed →
      "failed" ∈ (process_image max_retries fe is_override env).trace ∧
        "completed" ∉ (process_image max_retries fe is_override env).trace) := by
  unfold process_image
  split
  · exact ⟨fun h => absurd h (by decide), fun _ => ⟨by decide, by decide⟩⟩
  · split
    · exact ⟨fun h => absurd h (by decide), fun h => absurd h (by decide)⟩
    · split
      · exact ⟨fun h => absurd h (by decide), fun h => absurd h (by decide)⟩
      · split
        · exact ⟨fun h => absurd h (by decide), fun _ => ⟨by decide, by decide⟩⟩
        · obtain ⟨hfail, hsucc, hskip⟩ :=
            processImageLoop_shape env max_retries 0 0 0 ["processing"]
          constructor
          · intro hmem
            cases hres : (processImageLoop env max_retries 0 0 0
                ["processing"]).result with
            | success d t =>
              obtain ⟨-, -, j, -, hj2, hgood⟩ := hsucc d t hres
              exact ⟨j, by omega, hgood⟩
            | skipped => exact absurd hres hskip
            | failed =>
              rw [hfail hres] at hmem
              exact absurd hmem (by decide)
          · intro hres
            rw [hfail hres]
            exact ⟨by decide, by decide⟩

/-- Witness for C2 at a concrete run: with five attempts whose first
succeeds end-to-end, the trace contains `completed`, and the theorem
produces the succeeding attempt. -/
theorem c2_witness :
    ∃ j, j < 5 ∧ visionAndWriteSucceeded
      ((fun _ => (⟨true, .ok true "A dog.", true⟩ : Attempt)) j) :=
  (c2_completed_only_after_vision_and_metadata 5 ⟨true, false, false, true⟩
    false (fun _ => ⟨true, .ok true "A dog.", true⟩)).1 (by decide)

/-- C3: when the health probe fails on every attempt, `process_image`
issues exactly `max_retries` probe requests — each failed probe consumes
one iteration of the retry budget — and then returns failure (the embedding
is a total function, so it cannot hang or raise). -/
theorem c3_probe_failure_retry_bound (max_retries : Nat) (fe : FileEnv)
    (env : Nat → Attempt)
    (hsize : fe.fileSizeOk = true) (hdb : fe.dbProcessed = false)
    (htr : fe.fileTracked = false) (henc : fe.encodeOk = true)
    (hprobe : ∀ j, (env j).probeOk = false) :
    (process_image max_retries fe false env).result = .failed ∧
    (process_image max_retries fe false env).probeCalls = max_retries := by
  unfold process_image
  simp only [hsize, hdb, htr, henc, Bool.not_true, Bool.and_false,
    Bool.false_eq_true, if_false, Bool.not_false, if_true,
    processImageLoop_probe_fail env hprobe]
  simp

/-- Witness for C3: five attempts, every probe failing, yields failure
after exactly five probe calls. -/
theorem c3_witness :
    (process_image 5 ⟨true, false, false, true⟩ false
        (fun _ => ⟨false, .reqError, false⟩)).result = .failed ∧
    (process_image 5 ⟨true, false, false, true⟩ false
        (fun _ => ⟨false, .reqError, false⟩)).probeCalls = 5 :=
  c3_probe_failure_retry_bound 5 ⟨true, false, false, true⟩
    (fun _ => ⟨false, .reqError, false⟩) rfl rfl rfl rfl (fun _ => rfl)

/-- C6: whenever `process_image` returns success, the description is
non-empty; and when every attempt returns an empty (stripped) model
response, each such attempt is consumed as a retry and the run ends in
failure after all `max_retries` attempts. -/
theorem c6_success_description_nonempty (max_retries : Nat) (fe : FileEnv)
    (is_override : Bool) (env : Nat → Attempt) :
    (∀ d t, (process_image max_retries fe is_override env).result =
        .success d t → d ≠ "") ∧
    (fe.fileSizeOk = true → fe.encodeOk = true → fe.dbProcessed = false →
      fe.fileTracked = false → (∀ j, emptyResponseAttempt (env j)) →
      (process_image max_retries fe is_override env).result = .failed ∧
        (process_image max_retries fe is_override env).attemptsUsed =
          max_retries) := by
  constructor
  · intro d t hres
    unfold process_image at hres
    split at hres
    · simp at hres
    · split at hres
      · simp at hres
      · split at hres
        · simp at hres
        · split at hres
          · simp at hres
          · exact ((processImageLoop_shape env max_retries 0 0 0
              ["processing"]).2.1 d t hres).2.1
  · intro h1 h4 h2 h3 hempty
    unfold process_image
    simp only [h1, h2, h3, h4, Bool.not_true, Bool.and_false,
      Bool.false_eq_true, if_false, Bool.not_false, if_true,
      processImageLoop_empty_response env hempty]
    simp

/-- Combine two pairwise facts pointwise. -/
theorem pairwiseCombine {α : Type} {R S T : α → α → Prop}
    (h : ∀ a b, R a b → S a b → T a b) :
    ∀ {l : List α}, l.Pairwise R → l.Pairwise S → l.Pairwise T := by
  intro l
  induction l with
  | nil => intro _ _; exact List.Pairwise.nil
  | cons x xs ih =>
    intro hR hS
    rw [List.pairwise_cons] at hR hS ⊢
    exact ⟨fun b hb => h x b (hR.1 b hb) (hS.1 b hb), ih hR.2 hS.2⟩

/-- Strictly-newer ordering on (path, mtime) pairs. -/
def mtimeGt (a b : String × Nat) : Prop := b.2 < a.2

instance : IsAntisymm (String × Nat) mtimeGt :=
  ⟨fun _ _ h1 h2 => absurd (Nat.lt_trans h1 h2) (Nat.lt_irrefl _)⟩

/-- C5: for any enumeration order of three files with strictly descending
modification times `t1 > t2 > t3`, `process_directory` processes them in
the order `t1, t2, t3` (newest first): the sort at `core.py` line 684
produces exactly that list. -/
theorem c5_processing_order_newest_first (f1 f2 f3 : String)
    (t1 t2 t3 : Nat) (h21 : t2 < t1) (h32 : t3 < t2)
    (xs : List (String × Nat))
    (hperm : xs.Perm [(f1, t1), (f2, t2), (f3, t3)]) :
    process_directory_order xs = [(f1, t1), (f2, t2), (f3, t3)] := by
  have hpermS : (process_directory_order xs).Perm
      [(f1, t1), (f2, t2), (f3, t3)] :=
    (List.perm_insertionSort mtimeGe xs).trans hperm
  have hsorted : (process_directory_order xs).Pairwise mtimeGe :=
    List.sorted_insertionSort mtimeGe xs
  have hndT : ([(f1, t1), (f2, t2), (f3, t3)].map Prod.snd).Nodup := by
    simp [List.nodup_cons]
    omega
  have hnd : ((process_directory_order xs).map Prod.snd).Nodup :=
    ((hpermS.map Prod.snd).nodup_iff).mpr hndT
  have hne : (process_directory_order xs).Pairwise
      (fun a b : String × Nat => a.2 ≠ b.2) :=
    List.pairwise_map.mp hnd
  have hstrict : (process_directory_order xs).Pairwise mtimeGt :=
    pairwiseCombine
      (fun a b (hge : mtimeGe a b) (hne' : a.2 ≠ b.2) =>
        Nat.lt_of_le_of_ne hge (fun he => hne' he.symm))
      hsorted hne
  have htarget : ([(f1, t1), (f2, t2), (f3, t3)] :
      List (String × Nat)).Pairwise mtimeGt := by
    simp [List.pairwise_cons, mtimeGt]
    omega
  exact List.eq_of_perm_of_sorted hpermS hstrict htarget

/-- Witness for C5: the enumeration `[(b,2), (c,1), (a,3)]` is processed
as `[(a,3), (b,2), (c,1)]`. -/
theorem c5_witness :
    (2 : Nat) < 3 ∧ (1 : Nat) < 2 ∧
    ([(("b" : String), (2 : Nat)), ("c", 1), ("a", 3)]).Perm
      [("a", 3), ("b", 2), ("c", 1)] ∧
    process_directory_order [("b", 2), ("c", 1), ("a", 3)] =
      [("a", 3), ("b", 2), ("c", 1)] :=
  ⟨by decide, by decide, by decide,
    c5_processing_order_newest_first "a" "b" "c" 3 2 1 (by decide)
      (by decide) [("b", 2), ("c", 1), ("a", 3)] (by decide)⟩

/-- Witness for C6: with every attempt answering HTTP 200 and a
whitespace-only `response` field, five attempts are consumed and the run
fails. -/
theorem c6_witness :
    (process_image 5 ⟨true, false, false, true⟩ false
        (fun _ => ⟨true, .ok true "  ", false⟩)).result = .failed ∧
    (process_image 5 ⟨true, false, false, true⟩ false
        (fun _ => ⟨true, .ok true "  ", false⟩)).attemptsUsed = 5 :=
  (c6_success_description_nonempty 5 ⟨true, false, false, true⟩ false
      (fun _ => ⟨true, .ok true "  ", false⟩)).2 rfl rfl rfl rfl
    (fun _ => ⟨rfl, "  ", rfl, by decide⟩)

/-- C7: for a `.png`-extension file whose actual decoded format is JPEG,
when the first exiftool write fails with the format-mismatch error
signature and the forced-JPEG retry exits cleanly, `update_image_metadata`
returns success. -/
theorem c7_png_jpeg_mismatch_forced_retry (max_retries : Nat)
    (attempts : Nat → MetaAttempt) (stderr : String)
    (hmr : 1 ≤ max_retries)
    (hprim : (attempts 0).primary = .err stderr)
    (hmsg1 : strContains (exiftoolErrorMsg stderr) "Not a valid PNG" = true)
    (hmsg2 : strContains (exiftoolErrorMsg stderr)
      "looks more like a JPEG" = true)
    (hforced : (attempts 0).forced = .ok) :
    update_image_metadata ".png" (some "jpeg") max_retries attempts = true := by
  cases max_retries with
  | zero => exact absurd hmr (by omega)
  | succ n =>
    unfold update_image_metadata
    rw [updateImageMetadataLoop]
    simp [hprim, hmsg1, hmsg2, hforced]

/-- Witness for C7: a concrete exiftool stderr carrying the mismatch
signature, first write failing, forced-JPEG write succeeding. -/
theorem c7_witness :
    update_image_metadata ".png" (some "jpeg") 5
      (fun _ =>
        ⟨.err "Error: Not a valid PNG (looks more like a JPEG) - x.png",
          .ok⟩) = true :=
  c7_png_jpeg_mismatch_forced_retry 5
    (fun _ =>
      ⟨.err "Error: Not a valid PNG (looks more like a JPEG) - x.png", .ok⟩)
    "Error: Not a valid PNG (looks more like a JPEG) - x.png"
    (by omega) rfl (by decide) (by decide) rfl

/-- C8: with file tracking enabled and a computable content hash, marking a
file as processed and then re-checking it (with the same hash, i.e. the
file's bytes unchanged) reports it as processed, provided the appended
`path:hash` text is strip-invariant (true for any path without leading
whitespace, since the hash is hex). -/
theorem c8_mark_then_check_round_trip (file : Option (List String))
    (path h : String)
    (hs : pyStrip (path ++ ":" ++ h ++ "\n") = path ++ ":" ++ h) :
    is_file_processed true
      (mark_file_as_processed true (some h) path file) (some h) path =
      true := by
  simp only [mark_file_as_processed, is_file_processed, Bool.not_true,
    Bool.false_eq_true, if_false]
  rw [List.any_append]
  simp [hs]

/-- Witness for C8: a fresh (absent) tracking file, a concrete path and
hash. -/
theorem c8_witness :
    pyStrip ("/photos/a.jpg" ++ ":" ++ "ab12" ++ "\n") =
        "/photos/a.jpg" ++ ":" ++ "ab12" ∧
    is_file_processed true
      (mark_file_as_processed true (some "ab12") "/photos/a.jpg" none)
      (some "ab12") "/photos/a.jpg" = true :=
  ⟨by decide,
    c8_mark_then_check_round_trip none "/photos/a.jpg" "ab12" (by decide)⟩

/-- The keep-condition applied by `clean_processed_db` to each log entry
(`core.py` lines 920-928). -/
def cleanKeep (fileExists : String → Bool) (entry : String) : Bool :=
  match splitFirstColon (pyStrip entry).data with
  | none => false
  | some (q, _) => fileExists ⟨q⟩

theorem clean_processed_db_eq_filter (fileExists : String → Bool) :
    ∀ entries : List String,
      (clean_processed_db fileExists entries).1 =
        entries.filter (cleanKeep fileExists) := by
  intro entries
  induction entries with
  | nil => rfl
  | cons x xs ih =>
    rw [clean_processed_db, List.filter_cons]
    rcases hx : splitFirstColon (pyStrip x).data with _ | ⟨q, r⟩
    · simp [cleanKeep, hx, ih]
    · by_cases hfe : fileExists ⟨q⟩
      · simp [cleanKeep, hx, hfe, ih]
      · simp [cleanKeep, hx, hfe, ih]

/-- C9: an entry of the tracking log in the owned `path:hash` format is
kept by `clean_processed_db` — verbatim — exactly when its referenced file
still exists; it is removed exactly when the file no longer exists. -/
theorem c9_cleanup_preserves_existing_files (fileExists : String → Bool)
    (entries : List String) (entry : String) (p rest : List Char)
    (hsplit : splitFirstColon (pyStrip entry).data = some (p, rest)) :
    entry ∈ (clean_processed_db fileExists entries).1 ↔
      entry ∈ entries ∧ fileExists ⟨p⟩ = true := by
  rw [clean_processed_db_eq_filter, List.mem_filter]
  simp [cleanKeep, hsplit]

/-- Witness for C9: a two-entry log where only the first entry's file
exists; cleanup keeps the first entry verbatim. -/
theorem c9_witness :
    "/photos/a.jpg:aa\n" ∈
      (clean_processed_db (fun s => s == "/photos/a.jpg")
        ["/photos/a.jpg:aa\n", "/gone/b.jpg:bb\n"]).1 :=
  (c9_cleanup_preserves_existing_files (fun s => s == "/photos/a.jpg")
      ["/photos/a.jpg:aa\n", "/gone/b.jpg:bb\n"] "/photos/a.jpg:aa\n"
      "/photos/a.jpg".data "aa".data (by decide)).mpr
    ⟨by decide, by decide⟩

/-- Sum of the three outcome counters. -/
def countsTotal (c : Counts) : Nat :=
  c.success_count + c.skip_count + c.error_count

theorem countFile_total (c : Counts) (o : FileOutcome) :
    countsTotal (countFile c o) = countsTotal c + 1 := by
  cases o <;> simp [countFile, countsTotal] <;> omega

theorem runBatchFiles_total (outcome : String × Nat → FileOutcome) :
    ∀ (batch : List (String × Nat)) (c : Counts),
      countsTotal (runBatchFiles outcome c batch) =
        countsTotal c + batch.length := by
  intro batch
  induction batch with
  | nil => intro c; simp [runBatchFiles]
  | cons f fs ih =>
    intro c
    simp only [runBatchFiles] at ih ⊢
    rw [List.foldl_cons, ih, countFile_total]
    simp [List.length_cons]
    omega

theorem batchLoop_total (outcome : String × Nat → FileOutcome)
    (batch_size : Nat) :
    ∀ (files batch : List (String × Nat)) (c : Counts),
      countsTotal (batchLoop outcome batch_size files batch c) =
        countsTotal c + batch.length + files.length := by
  intro files
  induction files with
  | nil =>
    intro batch c
    rw [batchLoop]
    cases batch with
    | nil => simp
    | cons b bs => simp [runBatchFiles_total]
  | cons f fs ih =>
    intro batch c
    rw [batchLoop]
    by_cases hb : batch_size ≤ (batch ++ [f]).length
    · simp only [hb, if_true, ih, runBatchFiles_total]
      simp [List.length_append]
      omega
    · simp only [hb, if_false, ih]
      simp [List.length_append]
      omega

/-- C10: with `return_data=False`, the counters returned by
`process_directory` always partition the discovered files —
`success_count + skip_count + error_count = total_files` — in both the
batched (`batch_size > 0`) and unbatched paths. -/
theorem c10_counts_partition (outcome : String × Nat → FileOutcome)
    (batch_size : Nat) (files : List (String × Nat)) :
    (process_directory outcome batch_size files).1.success_count +
      (process_directory outcome batch_size files).1.skip_count +
      (process_directory outcome batch_size files).1.error_count =
      (process_directory outcome batch_size files).2 := by
  have hlen : (process_directory_order files).length = files.length :=
    List.length_insertionSort mtimeGe files
  unfold process_directory
  by_cases hb : 0 < batch_size
  · simp only [hb, if_true]
    have := batchLoop_total outcome batch_size
      (process_directory_order files) [] ⟨0, 0, 0⟩
    simp only [countsTotal] at this
    simpa [hlen] using this
  · simp only [hb, if_false]
    have := runBatchFiles_total outcome (process_directory_order files)
      ⟨0, 0, 0⟩
    simp only [runBatchFiles] at this
    simp only [countsTotal] at this
    simpa [hlen] using this

/-- C4 counterexample: a modify event for a recognized image path whose
database row already exists (with a stale description) leaves the row
unchanged and never calls `process_image` — no invalidation and no
reprocessing happen, contradicting the claim that the existing record is
invalidated before reprocessing. -/
theorem c4_counterexample :
    on_modified false ".jpg"
      (some ⟨"completed", some "an old stale description", some 50⟩)
      (.success "a fresh description" ["fresh"]) =
      ⟨some ⟨"completed", some "an old stale description", some 50⟩,
        false⟩ := by
  rfl

/-- C4 (amended): on a modify event for a recognized image path, the
handler returns early when a database row for the path already exists,
leaving the row (and its stale description) unchanged and never calling
`process_image`; it calls `process_image` only when no row exists. -/
theorem c4_modify_event_skips_existing_record (suffix : String)
    (hsfx : IMAGE_EXTENSIONS.contains (pyLower suffix) = true)
    (img : ImageRecord) (procResult : ProcResult) :
    on_modified false suffix (some img) procResult = ⟨some img, false⟩ ∧
    (∀ pr : ProcResult,
      (on_modified false suffix none pr).calledProcessImage = true) := by
  have hmem : pyLower suffix ∈ IMAGE_EXTENSIONS := by simpa using hsfx
  refine ⟨?_, fun pr => ?_⟩
  · unfold on_modified watchHandlerProcessImage
    simp [hmem]
  · cases pr <;> (unfold on_modified watchHandlerProcessImage; simp [hmem])

/-- Witness for C4's amended theorem at a concrete event. -/
theorem c4_witness :
    on_modified false ".jpg" (some ⟨"pending", none, none⟩) .failed =
      ⟨some ⟨"pending", none, none⟩, false⟩ ∧
    (∀ pr : ProcResult,
      (on_modified false ".jpg" none pr).calledProcessImage = true) :=
  c4_modify_event_skips_existing_record ".jpg" (by decide)
    ⟨"pending", none, none⟩ .failed

end ImageTagger
